import Mathlib

/-!
# Shallow embedding of the AnimLED DMX512 receiver module

This file embeds `Core/Src/DMX512.c` together with its header
`Core/Inc/DMX512.h` in Lean.  The module's static and global variables
become a state record `DMXState`, each C function becomes a pure state
transformer, and machine integers become `Nat` with an explicit `% 256`
exactly where a C type conversion narrows a value.  A C function taking
an out-pointer is modelled with `Option`: `none` is the NULL pointer,
`some v` a pointer whose referent currently holds `v`.  Buffer reads use
total `Option`-returning indexing, so an out-of-bounds access in the C
code would surface as a `none` result of the embedded function.
-/

set_option maxRecDepth 10000

namespace DMX512

/-- `#define DMX_FRAME_SIZE 513` — START CODE (1 byte) + 512 channels. -/
def DMX_FRAME_SIZE : Nat := 513

/-- `#define DMX_START_CODE 0x00`. -/
def DMX_START_CODE : Nat := 0

/-- `#define DMX_CHANNEL_MIN 1`. -/
def DMX_CHANNEL_MIN : Nat := 1

/-- `#define DMX_CHANNEL_MAX 506`. -/
def DMX_CHANNEL_MAX : Nat := 506

/-- `#define DMX_OFFSET_RED 0`. -/
def DMX_OFFSET_RED : Nat := 0

/-- `#define DMX_OFFSET_GREEN 1`. -/
def DMX_OFFSET_GREEN : Nat := 1

/-- `#define DMX_OFFSET_BLUE 2`. -/
def DMX_OFFSET_BLUE : Nat := 2

/-- `#define DMX_OFFSET_DIMMER 3`. -/
def DMX_OFFSET_DIMMER : Nat := 3

/-- `#define DMX_OFFSET_FLASH 4`. -/
def DMX_OFFSET_FLASH : Nat := 4

/-- `DMX_DataTypeDef`: the five decoded `uint8_t` channel values. -/
structure DMX_DataTypeDef where
  red : Nat
  green : Nat
  blue : Nat
  dimmer : Nat
  flash : Nat
deriving DecidableEq

/-- The state of the module: the static and global variables of `DMX512.c`.
`dmxChannel` is a `uint8_t` (so always `< 256` for reachable states),
`dmxFlag` a `uint8_t` used as a 0/1 flag, `indexDmx` a `uint16_t`, the
counters `uint32_t`, and `dmxFrame` the 513-byte frame buffer. -/
structure DMXState where
  dmxChannel : Nat
  totalFramesReceived : Nat
  errorFramesReceived : Nat
  dmxFlag : Nat
  indexDmx : Nat
  dmxFrame : List Nat
deriving DecidableEq

/-- The static initial values of the variables of `DMX512.c`:
`dmxChannel = 1`, counters `0`, `dmxFlag = 0`, `indexDmx = 0`, and the
frame buffer zero-initialised. -/
def initialState : DMXState :=
  { dmxChannel := 1
    totalFramesReceived := 0
    errorFramesReceived := 0
    dmxFlag := 0
    indexDmx := 0
    dmxFrame := List.replicate DMX_FRAME_SIZE 0 }

/-- `DMX_SetChannel`.  The C parameter is a `uint8_t`, so the caller's
argument is truncated `% 256` before the range check `DMX_CHANNEL_MIN <=
channel && channel <= DMX_CHANNEL_MAX` runs. -/
def DMX_SetChannel (st : DMXState) (channel : Nat) : Bool × DMXState :=
  let c := channel % 256
  if DMX_CHANNEL_MIN ≤ c ∧ c ≤ DMX_CHANNEL_MAX then
    (true, { st with dmxChannel := c })
  else
    (false, st)

/-- `DMX_GetChannel`. -/
def DMX_GetChannel (st : DMXState) : Nat :=
  st.dmxChannel

/-- `DMX_IsNewFrameAvailable`: if `dmxFlag == 1`, clear it and return
`true`; otherwise return `false`. -/
def DMX_IsNewFrameAvailable (st : DMXState) : Bool × DMXState :=
  if st.dmxFlag = 1 then
    (true, { st with dmxFlag := 0 })
  else
    (false, st)

/-- `DMX_DecodeFrame`.  The `data` argument models the out-pointer
(`none` = NULL).  The result is `none` only if one of the C buffer reads
would be out of bounds; otherwise `some (ret, st', data')` gives the C
return value, the new module state, and the new referent of `data`. -/
def DMX_DecodeFrame (st : DMXState) (data : Option DMX_DataTypeDef) :
    Option (Bool × DMXState × Option DMX_DataTypeDef) :=
  match data with
  | none => some (false, st, none)
  | some d =>
    match st.dmxFrame[0]? with
    | none => none
    | some b0 =>
      if b0 ≠ DMX_START_CODE then
        some (false,
              { st with errorFramesReceived := st.errorFramesReceived + 1 },
              some d)
      else
        match st.dmxFrame[st.dmxChannel + DMX_OFFSET_RED]?,
              st.dmxFrame[st.dmxChannel + DMX_OFFSET_GREEN]?,
              st.dmxFrame[st.dmxChannel + DMX_OFFSET_BLUE]?,
              st.dmxFrame[st.dmxChannel + DMX_OFFSET_DIMMER]?,
              st.dmxFrame[st.dmxChannel + DMX_OFFSET_FLASH]? with
        | some r, some g, some b, some dm, some fl =>
          some (true,
                { st with totalFramesReceived := st.totalFramesReceived + 1 },
                some { red := r, green := g, blue := b, dimmer := dm, flash := fl })
        | _, _, _, _, _ => none

/-- `DMX_ApplyDimmer`.  Both arguments model pointers; the result is the
new referent of `output` (unchanged if either pointer is NULL).  The
products are computed as `uint32_t` (exact for 8-bit operands) and the
quotients are narrowed back to the `uint8_t` fields, hence `% 256`;
`dimmer` and `flash` are copied `uint8_t` to `uint8_t`. -/
def DMX_ApplyDimmer (data output : Option DMX_DataTypeDef) :
    Option DMX_DataTypeDef :=
  match data, output with
  | some d, some _ =>
    some { red := d.red * d.dimmer / 255 % 256
           green := d.green * d.dimmer / 255 % 256
           blue := d.blue * d.dimmer / 255 % 256
           dimmer := d.dimmer
           flash := d.flash }
  | _, _ => output

/-- `DMX_ErrorCallback` on the DMX UART (the BREAK signal): resets
`indexDmx` and `dmxFlag` unconditionally.  The HAL re-arm of reception
is hardware interaction with no effect on the module state. -/
def DMX_ErrorCallback (st : DMXState) : DMXState :=
  { st with indexDmx := 0, dmxFlag := 0 }

/-- `DMX_RxCallback` on the DMX UART with `byte` the received
`rxBuf[0]`: if `indexDmx < DMX_FRAME_SIZE`, store the byte, increment
the index, and raise `dmxFlag` when the index reaches
`DMX_FRAME_SIZE`; otherwise discard the byte. -/
def DMX_RxCallback (st : DMXState) (byte : Nat) : DMXState :=
  if st.indexDmx < DMX_FRAME_SIZE then
    let frame := st.dmxFrame.set st.indexDmx (byte % 256)
    let idx := st.indexDmx + 1
    if DMX_FRAME_SIZE ≤ idx then
      { st with dmxFrame := frame, indexDmx := idx, dmxFlag := 1 }
    else
      { st with dmxFrame := frame, indexDmx := idx }
  else
    st

/-- `DMX_ResetStats`. -/
def DMX_ResetStats (st : DMXState) : DMXState :=
  { st with totalFramesReceived := 0, errorFramesReceived := 0 }

/-- `DMX_GetStats` with both pointers non-NULL: returns
`(totalFramesReceived, errorFramesReceived)`. -/
def DMX_GetStats (st : DMXState) : Nat × Nat :=
  (st.totalFramesReceived, st.errorFramesReceived)

/-- `DMX_Init`: configures the address via `DMX_SetChannel`, zeroes
`indexDmx`, `dmxFlag` and the frame buffer, and resets the statistics.
The UART handle and the initial HAL reception arm are hardware. -/
def DMX_Init (st : DMXState) (startChannel : Nat) : DMXState :=
  let st1 := (DMX_SetChannel st startChannel).2
  DMX_ResetStats
    { st1 with indexDmx := 0, dmxFlag := 0,
               dmxFrame := List.replicate DMX_FRAME_SIZE 0 }

/-- A sequence of received bytes fed one by one through
`DMX_RxCallback`. -/
def applyBytes (bs : List Nat) (st : DMXState) : DMXState :=
  bs.foldl DMX_RxCallback st

/-- States reachable from power-up (`initialState`, then `DMX_Init`)
by any interleaving of the module's entry points. -/
inductive Reachable : DMXState → Prop
  | init (startChannel : Nat) : Reachable (DMX_Init initialState startChannel)
  | setCh {st} (c : Nat) : Reachable st → Reachable (DMX_SetChannel st c).2
  | brk {st} : Reachable st → Reachable (DMX_ErrorCallback st)
  | rx {st} (b : Nat) : Reachable st → Reachable (DMX_RxCallback st b)
  | poll {st} : Reachable st → Reachable (DMX_IsNewFrameAvailable st).2
  | dec {st} (d : Option DMX_DataTypeDef) {r} :
      Reachable st → DMX_DecodeFrame st d = some r → Reachable r.2.1
  | rst {st} : Reachable st → Reachable (DMX_ResetStats st)

/-- The state invariant maintained by every entry point: the frame
buffer keeps its 513 bytes, the stored address is a `uint8_t` in
`[1, 255]`, the fill index never exceeds 513, and the ready flag is
raised only on a full frame. -/
def Inv (st : DMXState) : Prop :=
  st.dmxFrame.length = DMX_FRAME_SIZE ∧
  1 ≤ st.dmxChannel ∧ st.dmxChannel ≤ 255 ∧
  st.indexDmx ≤ DMX_FRAME_SIZE ∧
  (st.dmxFlag = 1 → st.indexDmx = DMX_FRAME_SIZE)

theorem inv_initialState : Inv initialState :=
  ⟨List.length_replicate _ _, Nat.le_refl 1, by decide, Nat.zero_le _,
   fun h => absurd h (by decide)⟩

theorem setChannel_inv {st : DMXState} (h : Inv st) (c : Nat) :
    Inv (DMX_SetChannel st c).2 := by
  obtain ⟨h1, h2, h3, h4, h5⟩ := h
  unfold DMX_SetChannel
  by_cases hc : DMX_CHANNEL_MIN ≤ c % 256 ∧ c % 256 ≤ DMX_CHANNEL_MAX
  · rw [if_pos hc]
    exact ⟨h1, hc.1, Nat.le_of_lt_succ (Nat.mod_lt _ (by norm_num)), h4, h5⟩
  · rw [if_neg hc]
    exact ⟨h1, h2, h3, h4, h5⟩

theorem errorCallback_inv {st : DMXState} (h : Inv st) :
    Inv (DMX_ErrorCallback st) := by
  obtain ⟨h1, h2, h3, h4, h5⟩ := h
  exact ⟨h1, h2, h3, by simp [DMX_ErrorCallback, DMX_FRAME_SIZE],
         by simp [DMX_ErrorCallback]⟩

theorem rxCallback_inv {st : DMXState} (h : Inv st) (b : Nat) :
    Inv (DMX_RxCallback st b) := by
  obtain ⟨h1, h2, h3, h4, h5⟩ := h
  unfold DMX_RxCallback
  by_cases hidx : st.indexDmx < DMX_FRAME_SIZE
  · rw [if_pos hidx]
    by_cases hfull : DMX_FRAME_SIZE ≤ st.indexDmx + 1
    · rw [if_pos hfull]
      refine ⟨by simpa using h1, h2, h3, by simp; omega, by simp; omega⟩
    · rw [if_neg hfull]
      refine ⟨by simpa using h1, h2, h3, by simp; omega, ?_⟩
      intro hflag
      simp at hflag
      exact absurd (h5 hflag) (by omega)
  · rw [if_neg hidx]
    exact ⟨h1, h2, h3, h4, h5⟩

theorem poll_inv {st : DMXState} (h : Inv st) :
    Inv (DMX_IsNewFrameAvailable st).2 := by
  obtain ⟨h1, h2, h3, h4, h5⟩ := h
  unfold DMX_IsNewFrameAvailable
  by_cases hf : st.dmxFlag = 1
  · rw [if_pos hf]
    exact ⟨h1, h2, h3, h4, by simp⟩
  · rw [if_neg hf]
    exact ⟨h1, h2, h3, h4, h5⟩

theorem resetStats_inv {st : DMXState} (h : Inv st) :
    Inv (DMX_ResetStats st) := by
  obtain ⟨h1, h2, h3, h4, h5⟩ := h
  exact ⟨h1, h2, h3, h4, h5⟩

/-- `DMX_DecodeFrame` changes at most the two statistics counters: on a
non-`none` result the output state agrees with the input state on the
frame buffer, the address, the fill index and the flag. -/
theorem decodeFrame_state_cases {st : DMXState} {d : Option DMX_DataTypeDef}
    {r : Bool × DMXState × Option DMX_DataTypeDef}
    (h : DMX_DecodeFrame st d = some r) :
    r.2.1 = st ∨
    r.2.1 = { st with errorFramesReceived := st.errorFramesReceived + 1 } ∨
    r.2.1 = { st with totalFramesReceived := st.totalFramesReceived + 1 } := by
  unfold DMX_DecodeFrame at h
  split at h
  · cases h
    exact Or.inl rfl
  · split at h
    · cases h
    · split at h
      · cases h
        exact Or.inr (Or.inl rfl)
      · split at h
        · cases h
          exact Or.inr (Or.inr rfl)
        · cases h

theorem decodeFrame_inv {st : DMXState} (h : Inv st) (d : Option DMX_DataTypeDef)
    {r : Bool × DMXState × Option DMX_DataTypeDef}
    (hd : DMX_DecodeFrame st d = some r) : Inv r.2.1 := by
  obtain ⟨h1, h2, h3, h4, h5⟩ := h
  rcases decodeFrame_state_cases hd with he | he | he <;> rw [he] <;>
    exact ⟨h1, h2, h3, h4, h5⟩

theorem init_inv (st : DMXState) (h : Inv st) (c : Nat) :
    Inv (DMX_Init st c) := by
  have h1 := setChannel_inv h c
  obtain ⟨_, h2, h3, _, _⟩ := h1
  unfold DMX_Init DMX_ResetStats
  exact ⟨by simp, h2, h3, by simp [DMX_FRAME_SIZE], by simp⟩

/-- The master invariant holds in every reachable state. -/
theorem reachable_inv {st : DMXState} (h : Reachable st) : Inv st := by
  induction h with
  | init c => exact init_inv initialState inv_initialState c
  | setCh c _ ih => exact setChannel_inv ih c
  | brk _ ih => exact errorCallback_inv ih
  | rx b _ ih => exact rxCallback_inv ih b
  | poll _ ih => exact poll_inv ih
  | dec d _ hd ih => exact decodeFrame_inv ih d hd
  | rst _ ih => exact resetStats_inv ih

/-- Feeding `bs` bytes into a state whose fill index is below 513 and
has room for all of them advances the index by `bs.length` and raises
`dmxFlag` exactly when the index lands on 513. -/
theorem applyBytes_fill (bs : List Nat) (st : DMXState)
    (h : st.indexDmx + bs.length ≤ DMX_FRAME_SIZE)
    (hlt : st.indexDmx < DMX_FRAME_SIZE) :
    (applyBytes bs st).indexDmx = st.indexDmx + bs.length ∧
    (applyBytes bs st).dmxFlag =
      if st.indexDmx + bs.length = DMX_FRAME_SIZE then 1 else st.dmxFlag := by
  induction bs generalizing st with
  | nil =>
    simp only [applyBytes, List.foldl_nil, List.length_nil, Nat.add_zero]
    exact ⟨trivial, by rw [if_neg (Nat.ne_of_lt hlt)]⟩
  | cons b rest ih =>
    simp only [applyBytes, List.foldl_cons, List.length_cons] at *
    have hrx : DMX_RxCallback st b =
        if DMX_FRAME_SIZE ≤ st.indexDmx + 1 then
          { st with dmxFrame := st.dmxFrame.set st.indexDmx (b % 256),
                    indexDmx := st.indexDmx + 1, dmxFlag := 1 }
        else
          { st with dmxFrame := st.dmxFrame.set st.indexDmx (b % 256),
                    indexDmx := st.indexDmx + 1 } := by
      rw [DMX_RxCallback, if_pos hlt]
    by_cases hfull : DMX_FRAME_SIZE ≤ st.indexDmx + 1
    · have hrest : rest.length = 0 := by omega
      have hrest0 : rest = [] := List.eq_nil_of_length_eq_zero hrest
      subst hrest0
      rw [hrx, if_pos hfull]
      simp only [List.foldl_nil, List.length_nil]
      constructor
      · trivial
      · show (1 : Nat) = if st.indexDmx + (0 + 1) = DMX_FRAME_SIZE then 1 else st.dmxFlag
        rw [if_pos (by omega)]
    · have hlt1 : st.indexDmx + 1 < DMX_FRAME_SIZE := by omega
      rw [hrx, if_neg hfull]
      obtain ⟨ih1, ih2⟩ :=
        ih { st with dmxFrame := st.dmxFrame.set st.indexDmx (b % 256),
                     indexDmx := st.indexDmx + 1 }
          (by show st.indexDmx + 1 + rest.length ≤ DMX_FRAME_SIZE; omega)
          (by show st.indexDmx + 1 < DMX_FRAME_SIZE; omega)
      refine ⟨by rw [ih1]; show st.indexDmx + 1 + rest.length = _; omega, ?_⟩
      rw [ih2]
      have harith : st.indexDmx + 1 + rest.length = st.indexDmx + (rest.length + 1) := by
        omega
      rw [show ({ st with dmxFrame := st.dmxFrame.set st.indexDmx (b % 256),
                          indexDmx := st.indexDmx + 1 } : DMXState).indexDmx
            = st.indexDmx + 1 from rfl, harith]

/-- C1: the claim fails on the code.  `DMX_SetChannel`'s parameter is a
`uint8_t`, so the range check against `DMX_CHANNEL_MAX = 506` is
vacuous: a call with 507 truncates to 251, is accepted, and overwrites
the stored address, and a call with 506 truncates to 250, so 506 itself
can never be stored — contradicting the header's documented contract of
rejecting addresses outside `[1, 506]`. -/
theorem C1_setChannel_truncation :
    (DMX_SetChannel initialState 507).1 = true ∧
    DMX_GetChannel (DMX_SetChannel initialState 507).2 = 251 ∧
    (DMX_SetChannel initialState 506).1 = true ∧
    DMX_GetChannel (DMX_SetChannel initialState 506).2 = 250 ∧
    (DMX_SetChannel initialState 0).1 = false ∧
    DMX_GetChannel (DMX_SetChannel initialState 0).2 = 1 ∧
    (DMX_SetChannel initialState 1).1 = true ∧
    DMX_GetChannel (DMX_SetChannel initialState 1).2 = 1 := by
  refine ⟨rfl, rfl, rfl, rfl, rfl, rfl, rfl, rfl⟩

/-- C2: decoding with a non-NULL destination and a frame whose first
byte is not the START CODE returns failure, increments
`errorFramesReceived` by exactly one, leaves `totalFramesReceived` and
every other state component unchanged, and leaves the destination's
previous value untouched. -/
theorem C2_decode_invalid_start_code (st : DMXState) (d : DMX_DataTypeDef)
    (b0 : Nat) (h0 : st.dmxFrame[0]? = some b0) (hb : b0 ≠ DMX_START_CODE) :
    DMX_DecodeFrame st (some d) =
      some (false,
            { st with errorFramesReceived := st.errorFramesReceived + 1 },
            some d) := by
  simp [DMX_DecodeFrame, h0, hb]

/-- C2 witness: a concrete all-7 frame is rejected with the error
counter going from 0 to 1 and the destination value preserved. -/
theorem C2_decode_invalid_start_code_witness :
    DMX_DecodeFrame
        { initialState with dmxFrame := List.replicate DMX_FRAME_SIZE 7 }
        (some { red := 1, green := 2, blue := 3, dimmer := 4, flash := 5 }) =
      some (false,
            { initialState with dmxFrame := List.replicate DMX_FRAME_SIZE 7,
                                errorFramesReceived := 1 },
            some { red := 1, green := 2, blue := 3, dimmer := 4, flash := 5 }) :=
  C2_decode_invalid_start_code _ _ 7 (by decide) (by decide)

/-- C3: with the configured address `a ∈ [1, 506]` and a frame whose
START CODE is 0, decoding succeeds, returns exactly the frame bytes at
offsets `a .. a+4` as red, green, blue, dimmer, flash in that fixed
order, increments `totalFramesReceived` by one, and leaves the frame
buffer and all other state unchanged. -/
theorem C3_decode_valid_frame (st : DMXState) (a : Nat) (d : DMX_DataTypeDef)
    (r g b dm fl : Nat)
    (ha : st.dmxChannel = a) (ha1 : DMX_CHANNEL_MIN ≤ a) (ha2 : a ≤ DMX_CHANNEL_MAX)
    (h0 : st.dmxFrame[0]? = some DMX_START_CODE)
    (hr : st.dmxFrame[a + DMX_OFFSET_RED]? = some r)
    (hg : st.dmxFrame[a + DMX_OFFSET_GREEN]? = some g)
    (hb : st.dmxFrame[a + DMX_OFFSET_BLUE]? = some b)
    (hdm : st.dmxFrame[a + DMX_OFFSET_DIMMER]? = some dm)
    (hfl : st.dmxFrame[a + DMX_OFFSET_FLASH]? = some fl) :
    DMX_DecodeFrame st (some d) =
      some (true,
            { st with totalFramesReceived := st.totalFramesReceived + 1 },
            some { red := r, green := g, blue := b, dimmer := dm, flash := fl }) := by
  subst ha
  simp [DMX_DecodeFrame, h0, hr, hg, hb, hdm, hfl]

/-- C3 witness: address 1 with marker bytes 10, 20, 30, 40, 50 at
channels 1–5 decodes to exactly those five values in order. -/
theorem C3_decode_valid_frame_witness :
    DMX_DecodeFrame
        { initialState with
            dmxFrame := 0 :: 10 :: 20 :: 30 :: 40 :: 50 :: List.replicate 507 0 }
        (some { red := 0, green := 0, blue := 0, dimmer := 0, flash := 0 }) =
      some (true,
            { initialState with
                dmxFrame := 0 :: 10 :: 20 :: 30 :: 40 :: 50 :: List.replicate 507 0,
                totalFramesReceived := 1 },
            some { red := 10, green := 20, blue := 30, dimmer := 40, flash := 50 }) :=
  C3_decode_valid_frame _ 1 _ 10 20 30 40 50 (by decide) (by decide) (by decide)
    (by decide) (by decide) (by decide) (by decide) (by decide) (by decide)

/-- C4: `DMX_ApplyDimmer` scales each colour by `dimmer / 255` with
exact integer arithmetic — the intermediate products are at most
65025, far below `2 ^ 32` — passes `dimmer` and `flash` through
unchanged, and every result fits in 8 bits. -/
theorem C4_applyDimmer_spec (d o : DMX_DataTypeDef)
    (hr : d.red < 256) (hg : d.green < 256) (hb : d.blue < 256)
    (hdm : d.dimmer < 256) (_hfl : d.flash < 256) :
    DMX_ApplyDimmer (some d) (some o) =
      some { red := d.red * d.dimmer / 255, green := d.green * d.dimmer / 255,
             blue := d.blue * d.dimmer / 255, dimmer := d.dimmer, flash := d.flash } ∧
    d.red * d.dimmer ≤ 65025 ∧ d.green * d.dimmer ≤ 65025 ∧
    d.blue * d.dimmer ≤ 65025 ∧ (65025 : Nat) < 2 ^ 32 ∧
    d.red * d.dimmer / 255 < 256 ∧ d.green * d.dimmer / 255 < 256 ∧
    d.blue * d.dimmer / 255 < 256 := by
  have key : ∀ x y : Nat, x < 256 → y < 256 →
      x * y ≤ 65025 ∧ x * y / 255 < 256 := by
    intro x y hx hy
    have hxy : x * y ≤ 255 * 255 :=
      Nat.mul_le_mul (Nat.le_of_lt_succ hx) (Nat.le_of_lt_succ hy)
    have h2 : x * y / 255 ≤ 65025 / 255 := Nat.div_le_div_right (by omega)
    have h3 : (65025 : Nat) / 255 = 255 := by norm_num
    constructor <;> omega
  obtain ⟨hr1, hr2⟩ := key d.red d.dimmer hr hdm
  obtain ⟨hg1, hg2⟩ := key d.green d.dimmer hg hdm
  obtain ⟨hb1, hb2⟩ := key d.blue d.dimmer hb hdm
  refine ⟨?_, hr1, hg1, hb1, by norm_num, hr2, hg2, hb2⟩
  simp [DMX_ApplyDimmer, Nat.mod_eq_of_lt hr2, Nat.mod_eq_of_lt hg2,
        Nat.mod_eq_of_lt hb2]

/-- C4 witness: the example from the source comment — (200, 150, 100)
at dimmer 128 yields (100, 75, 50) with dimmer and flash copied. -/
theorem C4_applyDimmer_spec_witness :
    DMX_ApplyDimmer
        (some { red := 200, green := 150, blue := 100, dimmer := 128, flash := 9 })
        (some { red := 0, green := 0, blue := 0, dimmer := 0, flash := 0 }) =
      some { red := 100, green := 75, blue := 50, dimmer := 128, flash := 9 } :=
  (C4_applyDimmer_spec
    { red := 200, green := 150, blue := 100, dimmer := 128, flash := 9 }
    { red := 0, green := 0, blue := 0, dimmer := 0, flash := 0 }
    (by decide) (by decide) (by decide) (by decide) (by decide)).1

/-- `initialState` itself is reachable: initialising with start channel 1
reproduces the power-up state. -/
theorem reachable_initialState : Reachable initialState := by
  have h := Reachable.init 1
  rwa [show DMX_Init initialState 1 = initialState from rfl] at h

/-- C5: from any state, a BREAK followed by exactly 513 received bytes
makes the first poll return true, and the immediately following poll
returns false; in general `DMX_IsNewFrameAvailable` returns true exactly
when `dmxFlag` is raised, clears the flag when it returns true, and
leaves the state untouched when it returns false. -/
theorem C5_pollAndClear_once (st s : DMXState) (bs : List Nat)
    (hlen : bs.length = 513) :
    (DMX_IsNewFrameAvailable (applyBytes bs (DMX_ErrorCallback st))).1 = true ∧
    (DMX_IsNewFrameAvailable
      (DMX_IsNewFrameAvailable (applyBytes bs (DMX_ErrorCallback st))).2).1 = false ∧
    ((DMX_IsNewFrameAvailable s).1 = true ↔ s.dmxFlag = 1) ∧
    ((DMX_IsNewFrameAvailable s).1 = true →
      (DMX_IsNewFrameAvailable s).2.dmxFlag = 0) ∧
    ((DMX_IsNewFrameAvailable s).1 = false →
      (DMX_IsNewFrameAvailable s).2 = s) := by
  have poll_iff : ∀ u : DMXState,
      (DMX_IsNewFrameAvailable u).1 = true ↔ u.dmxFlag = 1 := by
    intro u
    unfold DMX_IsNewFrameAvailable
    by_cases hf : u.dmxFlag = 1
    · rw [if_pos hf]
      simpa using hf
    · rw [if_neg hf]
      simpa using hf
  have poll_clears : ∀ u : DMXState, (DMX_IsNewFrameAvailable u).1 = true →
      (DMX_IsNewFrameAvailable u).2.dmxFlag = 0 := by
    intro u hu
    have hf := (poll_iff u).1 hu
    unfold DMX_IsNewFrameAvailable
    rw [if_pos hf]
  have poll_id : ∀ u : DMXState, (DMX_IsNewFrameAvailable u).1 = false →
      (DMX_IsNewFrameAvailable u).2 = u := by
    intro u hu
    unfold DMX_IsNewFrameAvailable at hu ⊢
    by_cases hf : u.dmxFlag = 1
    · rw [if_pos hf] at hu
      cases hu
    · rw [if_neg hf]
  obtain ⟨-, hflag⟩ := applyBytes_fill bs (DMX_ErrorCallback st)
    (by show (0 : Nat) + bs.length ≤ DMX_FRAME_SIZE
        rw [hlen]
        decide)
    (by show (0 : Nat) < DMX_FRAME_SIZE
        decide)
  have hflag1 : (applyBytes bs (DMX_ErrorCallback st)).dmxFlag = 1 := by
    rw [hflag, hlen]
    rw [show (DMX_ErrorCallback st).indexDmx = 0 from rfl]
    rw [if_pos (by decide)]
  have h1 : (DMX_IsNewFrameAvailable (applyBytes bs (DMX_ErrorCallback st))).1 = true :=
    (poll_iff _).2 hflag1
  have h0 := poll_clears _ h1
  have h2 : (DMX_IsNewFrameAvailable
      (DMX_IsNewFrameAvailable (applyBytes bs (DMX_ErrorCallback st))).2).1 = false := by
    cases hvb : (DMX_IsNewFrameAvailable
        (DMX_IsNewFrameAvailable (applyBytes bs (DMX_ErrorCallback st))).2).1
    · rfl
    · have hcontra := (poll_iff _).1 hvb
      rw [h0] at hcontra
      exact absurd hcontra (by norm_num)
  exact ⟨h1, h2, poll_iff s, poll_clears s, poll_id s⟩

/-- C5 witness: the concrete run from `initialState`, plus the general
poll facts evaluated at a state whose gate is raised. -/
theorem C5_pollAndClear_once_witness :
    (DMX_IsNewFrameAvailable
      (applyBytes (List.replicate 513 0) (DMX_ErrorCallback initialState))).1 = true ∧
    (DMX_IsNewFrameAvailable
      (DMX_IsNewFrameAvailable
        (applyBytes (List.replicate 513 0) (DMX_ErrorCallback initialState))).2).1 = false ∧
    ((DMX_IsNewFrameAvailable { initialState with dmxFlag := 1 }).1 = true ↔
      ({ initialState with dmxFlag := 1 } : DMXState).dmxFlag = 1) ∧
    ((DMX_IsNewFrameAvailable { initialState with dmxFlag := 1 }).1 = true →
      (DMX_IsNewFrameAvailable { initialState with dmxFlag := 1 }).2.dmxFlag = 0) ∧
    ((DMX_IsNewFrameAvailable { initialState with dmxFlag := 1 }).1 = false →
      (DMX_IsNewFrameAvailable { initialState with dmxFlag := 1 }).2 =
        { initialState with dmxFlag := 1 }) :=
  C5_pollAndClear_once initialState { initialState with dmxFlag := 1 }
    (List.replicate 513 0) (by simp)

/-- C6: in every reachable state the ready gate is raised only when the
fill index is exactly 513; and after a BREAK followed by fewer than 513
bytes the gate is still down. -/
theorem C6_readyGate_only_when_full (st : DMXState) (h : Reachable st)
    (bs : List Nat) (hlen : bs.length < 513) :
    (st.dmxFlag = 1 → st.indexDmx = DMX_FRAME_SIZE) ∧
    (applyBytes bs (DMX_ErrorCallback st)).dmxFlag = 0 := by
  refine ⟨(reachable_inv h).2.2.2.2, ?_⟩
  obtain ⟨-, hflag⟩ := applyBytes_fill bs (DMX_ErrorCallback st)
    (by show (0 : Nat) + bs.length ≤ DMX_FRAME_SIZE
        simp only [DMX_FRAME_SIZE]
        omega)
    (by show (0 : Nat) < DMX_FRAME_SIZE
        decide)
  rw [hflag]
  rw [show (DMX_ErrorCallback st).indexDmx = 0 from rfl]
  rw [if_neg (by simp only [DMX_FRAME_SIZE]; omega)]
  rfl

/-- C6 witness: at `initialState` with an empty byte sequence. -/
theorem C6_readyGate_only_when_full_witness :
    (initialState.dmxFlag = 1 → initialState.indexDmx = DMX_FRAME_SIZE) ∧
    (applyBytes [] (DMX_ErrorCallback initialState)).dmxFlag = 0 :=
  C6_readyGate_only_when_full initialState reachable_initialState [] (by decide)

/-- C7: `DMX_ErrorCallback` on the DMX UART resets the fill index to 0
and clears the ready gate from any prior state, leaving the stored
address, the frame buffer and both counters untouched — there is no
validation of the prior state. -/
theorem C7_errorCallback_unconditional (st : DMXState) :
    (DMX_ErrorCallback st).indexDmx = 0 ∧
    (DMX_ErrorCallback st).dmxFlag = 0 ∧
    (DMX_ErrorCallback st).dmxChannel = st.dmxChannel ∧
    (DMX_ErrorCallback st).dmxFrame = st.dmxFrame ∧
    (DMX_ErrorCallback st).totalFramesReceived = st.totalFramesReceived ∧
    (DMX_ErrorCallback st).errorFramesReceived = st.errorFramesReceived :=
  ⟨rfl, rfl, rfl, rfl, rfl, rfl⟩

/-- C8: when the fill index already equals 513, `DMX_RxCallback`
discards the byte and leaves the whole state — frame buffer, index,
flag and counters — unchanged. -/
theorem C8_rxCallback_overrun_discards (st : DMXState)
    (h : st.indexDmx = DMX_FRAME_SIZE) (b : Nat) :
    DMX_RxCallback st b = st := by
  unfold DMX_RxCallback
  rw [if_neg (by omega)]

/-- C8 witness: a byte arriving at a full buffer is dropped. -/
theorem C8_rxCallback_overrun_discards_witness :
    DMX_RxCallback { initialState with indexDmx := DMX_FRAME_SIZE } 99 =
      { initialState with indexDmx := DMX_FRAME_SIZE } :=
  C8_rxCallback_overrun_discards { initialState with indexDmx := DMX_FRAME_SIZE } rfl 99

/-- C9: every reachable state satisfies `1 ≤ address` and
`address + 4 ≤ 511`, so all five reads of `DMX_DecodeFrame` stay inside
the 513-byte frame: the out-of-bounds (`none`) branch of the total
embedding is unreachable. -/
theorem C9_decode_reads_inbounds (st : DMXState) (h : Reachable st)
    (d : Option DMX_DataTypeDef) :
    1 ≤ st.dmxChannel ∧ st.dmxChannel + 4 ≤ 511 ∧
    (DMX_DecodeFrame st d).isSome = true := by
  obtain ⟨hlen, h1, h255, -, -⟩ := reachable_inv h
  simp only [DMX_FRAME_SIZE] at hlen
  refine ⟨h1, by omega, ?_⟩
  rcases d with _ | d0
  · rfl
  · obtain ⟨b0, hb0⟩ : ∃ b0, st.dmxFrame[0]? = some b0 :=
      ⟨_, List.getElem?_eq_getElem (by omega)⟩
    obtain ⟨vr, hvr⟩ : ∃ v, st.dmxFrame[st.dmxChannel + DMX_OFFSET_RED]? = some v :=
      ⟨_, List.getElem?_eq_getElem (by simp only [DMX_OFFSET_RED]; omega)⟩
    obtain ⟨vg, hvg⟩ : ∃ v, st.dmxFrame[st.dmxChannel + DMX_OFFSET_GREEN]? = some v :=
      ⟨_, List.getElem?_eq_getElem (by simp only [DMX_OFFSET_GREEN]; omega)⟩
    obtain ⟨vb, hvb⟩ : ∃ v, st.dmxFrame[st.dmxChannel + DMX_OFFSET_BLUE]? = some v :=
      ⟨_, List.getElem?_eq_getElem (by simp only [DMX_OFFSET_BLUE]; omega)⟩
    obtain ⟨vdm, hvdm⟩ : ∃ v, st.dmxFrame[st.dmxChannel + DMX_OFFSET_DIMMER]? = some v :=
      ⟨_, List.getElem?_eq_getElem (by simp only [DMX_OFFSET_DIMMER]; omega)⟩
    obtain ⟨vfl, hvfl⟩ : ∃ v, st.dmxFrame[st.dmxChannel + DMX_OFFSET_FLASH]? = some v :=
      ⟨_, List.getElem?_eq_getElem (by simp only [DMX_OFFSET_FLASH]; omega)⟩
    by_cases hbc : b0 ≠ DMX_START_CODE
    · simp [DMX_DecodeFrame, hb0, hbc]
    · simp [DMX_DecodeFrame, hb0, hbc, hvr, hvg, hvb, hvdm, hvfl]

/-- C9 witness: at `initialState` with a NULL destination. -/
theorem C9_decode_reads_inbounds_witness :
    1 ≤ initialState.dmxChannel ∧ initialState.dmxChannel + 4 ≤ 511 ∧
    (DMX_DecodeFrame initialState none).isSome = true :=
  C9_decode_reads_inbounds initialState reachable_initialState none

/-- C10: decoding into a NULL destination fails immediately: no counter
moves, the frame buffer, fill index and flag are untouched — so a
decode failure does not always increment `errorFramesReceived`. -/
theorem C10_decode_null_destination (st : DMXState) :
    DMX_DecodeFrame st none = some (false, st, none) :=
  rfl

end DMX512
